import Mathlib

/-!
Shallow embedding of the message-send/response lifecycle of the nordik chat
application (src/App.tsx, `handleSendMessage`, lines 103-213) together with
the data model of src/types.ts.

The React component state that `handleSendMessage` reads and writes is
modelled as an explicit `AppState` record; the sequence of `setX` calls in
the source becomes explicit state passing.  The wall clock (`Date.now()`,
`new Date().toISOString()`) is modelled by a `SendEnv` record carrying one
field per sampling site, and the single network round trip (`fetch` plus
body parsing) is modelled by a `FetchResult` oracle carried in the same
record.  JavaScript string primitives used by the source (`trim`,
`substring(0, 30)`, number-to-string interpolation) are modelled by
explicit Lean functions over `String.data`.
-/

namespace Nordik

/-! ### JavaScript string primitives -/

/-- Model of JavaScript `String.prototype.trim`: drop whitespace characters
from both ends of the string. -/
def jsTrim (s : String) : String :=
  ⟨((s.data.dropWhile Char.isWhitespace).reverse.dropWhile Char.isWhitespace).reverse⟩

/-- Model of JavaScript `s.substring(0, e)`: the first `e` characters of `s`
(all of `s` when it is shorter). -/
def substringTo (s : String) (e : Nat) : String :=
  ⟨s.data.take e⟩

/-- The string `needle` occurs contiguously inside `hay`. -/
def containsSubstr (needle hay : String) : Prop :=
  needle.data <:+: hay.data

instance (needle hay : String) : Decidable (containsSubstr needle hay) :=
  List.decidableInfix needle.data hay.data

/-! ### Data model (src/types.ts) -/

/-- The `role` field of a `Message` (the union type `'user' | 'assistant'`). -/
inductive Role where
  | user
  | assistant
deriving DecidableEq, Repr

/-- src/types.ts `Message` (the optional `disableAnimation` display flag is
never read or written by the send/receive coordinator and is omitted). -/
structure Message where
  id : String
  role : Role
  content : String
  created_at : String
deriving DecidableEq, Repr

/-- src/types.ts `Conversation`. -/
structure Conversation where
  id : String
  title : String
  updated_at : String
deriving DecidableEq, Repr

/-! ### Wire format of the dialogue service (§6; src/App.tsx lines 161-168) -/

/-- The `payload` object of a trace: `{ message: string }`. -/
structure TracePayload where
  message : String
deriving DecidableEq, Repr

/-- One trace object of the response body: `{ type: string, payload: { message: string } }`. -/
structure Trace where
  type : String
  payload : TracePayload
deriving DecidableEq, Repr

/-- Outcome of the single network round trip made by `handleSendMessage`:
an OK response whose JSON body parsed as a list of traces, a non-OK HTTP
response with its status code and body text, or a thrown failure (network
error, malformed body, ...) carrying the exception message. -/
inductive FetchResult where
  | success (traces : List Trace)
  | httpError (status : Nat) (body : String)
  | failure (emsg : String)
deriving DecidableEq, Repr

/-- The configuration held in component state: `apiKey` and `versionId`
(src/App.tsx lines 42-43).  An empty `apiKey` is the "no credential" state. -/
structure Config where
  apiKey : String
  versionId : String
deriving DecidableEq, Repr

/-- Environment of one `handleSendMessage` invocation: the value returned by
each `Date.now()` / `new Date().toISOString()` sampling site, and the network
oracle. -/
structure SendEnv where
  /-- `Date.now()` at src/App.tsx line 108 (user message id). -/
  userMsgTime : Nat
  /-- `Date.now()` at src/App.tsx line 123 (fresh conversation id). -/
  convMintTime : Nat
  /-- `Date.now()` at src/App.tsx line 184 or 205 (assistant message id is this plus one). -/
  asstMsgTime : Nat
  /-- `new Date().toISOString()` at line 111. -/
  userCreatedAt : String
  /-- `new Date().toISOString()` at line 187 or 208. -/
  asstCreatedAt : String
  /-- `new Date().toISOString()` at line 198. -/
  convUpdatedAt : String
  /-- Outcome of the `fetch` call, when one is made. -/
  net : FetchResult
deriving DecidableEq, Repr

/-- The component state read and written by `handleSendMessage`
(src/App.tsx lines 32-36). -/
structure AppState where
  conversations : List Conversation
  activeConversationId : Option String
  messages : List Message
  inputText : String
  isSending : Bool
deriving DecidableEq, Repr

/-! ### The send/receive coordinator (src/App.tsx lines 103-213) -/

/-- The condition `trace.type === 'text' || trace.type === 'speak'` of
src/App.tsx line 165. -/
def isTextual (tr : Trace) : Prop :=
  tr.type = "text" ∨ tr.type = "speak"

instance (tr : Trace) : Decidable (isTextual tr) :=
  inferInstanceAs (Decidable (_ ∨ _))

/-- Trace parsing, src/App.tsx lines 164-168: starting from the empty string,
append `trace.payload.message + '\n'` for every trace whose `type` is
`"text"` or `"speak"`. -/
def traceContent (traces : List Trace) : String :=
  traces.foldl
    (fun acc tr => if isTextual tr then acc ++ tr.payload.message ++ "\n" else acc)
    ""

/-- Fallback notice used when no textual trace was returned (line 173). -/
def noTextFallback : String :=
  "I received a response, but it contained no text. (Check console for traces)"

/-- The canned echo produced in mock mode (line 179). -/
def mockContent (userContent : String) : String :=
  "[MOCK MODE] You asked: \"" ++ userContent ++
    "\". \n\nTo test your real agent, click the Settings gear in the sidebar and enter your Voiceflow API Key."

/-- Message of the error thrown on a non-OK HTTP response (line 158). -/
def vfApiErrorMsg (status : Nat) (body : String) : String :=
  "VF API Error (" ++ Nat.repr status ++ "): " ++ body

/-- Content of the assistant message appended by the catch block (line 207);
`emsg` is the caught exception's message, with the JavaScript
`e.message || 'Unknown error'` fallback for an empty message. -/
def errorReplyContent (emsg : String) : String :=
  "Error connecting to Voiceflow: " ++ (if emsg = "" then "Unknown error" else emsg) ++
    ". \n\nPlease check your API Key in Settings."

/-- Result of the `try` block body up to the point where `assistantContent`
is known (lines 129-180): either the content string, or the message of a
thrown exception. -/
inductive TryOutcome where
  | content (c : String)
  | thrown (emsg : String)
deriving DecidableEq, Repr

/-- Lines 130-180: with a credential, the fetch outcome is parsed (traces to
text, empty content replaced by the fallback notice, non-OK response thrown
as `VF API Error ...`); without a credential the mock echo is produced. -/
def attemptAssistantContent (cfg : Config) (env : SendEnv) (userContent : String) : TryOutcome :=
  if cfg.apiKey ≠ "" then
    match env.net with
    | FetchResult.success traces =>
        let c := traceContent traces
        TryOutcome.content (if c = "" then noTextFallback else c)
    | FetchResult.httpError status body => TryOutcome.thrown (vfApiErrorMsg status body)
    | FetchResult.failure emsg => TryOutcome.thrown emsg
  else
    TryOutcome.content (mockContent userContent)

/-- The user message built at lines 107-112. -/
def mkUserMessage (env : SendEnv) (input : String) : Message :=
  { id := Nat.repr env.userMsgTime
    role := Role.user
    content := input
    created_at := env.userCreatedAt }

/-- The assistant message built at lines 183-188 (success) or 204-209 (error):
its id is `(Date.now() + 1).toString()`. -/
def mkAssistantMessage (env : SendEnv) (content : String) : Message :=
  { id := Nat.repr (env.asstMsgTime + 1)
    role := Role.assistant
    content := content
    created_at := env.asstCreatedAt }

/-- Lines 121-124: reuse the active conversation id, or mint
`conv-<Date.now()>`. -/
def currentConvId (env : SendEnv) (s : AppState) : String :=
  match s.activeConversationId with
  | some cid => cid
  | none => "conv-" ++ Nat.repr env.convMintTime

/-- Line 127: the per-conversation external-service session key
`user-<conversation id>`. -/
def sessionKey (env : SendEnv) (s : AppState) : String :=
  "user-" ++ currentConvId env s

/-- Decimal digit characters of a natural number, most significant digit
first: a structurally recursive reference implementation of `Nat.toDigits 10`. -/
def decChars (n : Nat) : List Char :=
  if n < 10 then [Nat.digitChar n]
  else decChars (n / 10) ++ [Nat.digitChar (n % 10)]
decreasing_by exact Nat.div_lt_self (by omega) (by omega)

/-- src/App.tsx lines 103-213, `handleSendMessage`, as a state transition.
Guard (line 104), optimistic user-message append and busy-flag set
(lines 107-117), conversation-id determination (lines 121-124), the
`try`/`catch`/`finally` body (lines 129-212). -/
def handleSendMessage (cfg : Config) (env : SendEnv) (s : AppState) : AppState :=
  if jsTrim s.inputText = "" ∨ s.isSending then s
  else
    let userMsg := mkUserMessage env s.inputText
    let s1 : AppState :=
      { s with messages := s.messages ++ [userMsg], inputText := "", isSending := true }
    let convId := currentConvId env s
    let s2 : AppState :=
      match attemptAssistantContent cfg env userMsg.content with
      | TryOutcome.content c =>
          let assistantMsg := mkAssistantMessage env (jsTrim c)
          let s3 : AppState := { s1 with messages := s1.messages ++ [assistantMsg] }
          match s.activeConversationId with
          | some _ => s3
          | none =>
              { s3 with
                activeConversationId := some convId
                conversations :=
                  { id := convId
                    title := substringTo userMsg.content 30 ++ "..."
                    updated_at := env.convUpdatedAt } :: s3.conversations }
      | TryOutcome.thrown emsg =>
          { s1 with messages := s1.messages ++ [mkAssistantMessage env (errorReplyContent emsg)] }
    { s2 with isSending := false }

/-! ### Specification-side definitions (§4.2, §8 of spec.md)

These definitions follow the words of the spec, to be compared with the
functions embedded from the source. -/

/-- The payload messages of exactly those traces whose type is `"text"` or
`"speak"`, in response order. -/
def textualMessages (traces : List Trace) : List String :=
  (traces.filter (fun tr => decide (isTextual tr))).map (fun tr => tr.payload.message)

/-- The newline-joined concatenation of a list of strings (no trailing
newline). -/
def newlineJoin : List String → String
  | [] => ""
  | [m] => m
  | m :: ms => m ++ "\n" ++ newlineJoin ms

/-! ### Sessions: iterated sends -/

/-- One user turn of a session: the text typed into the input buffer, and the
environment (clock samples, network outcome) of the resulting
`handleSendMessage` invocation. -/
structure SendCall where
  env : SendEnv
  typed : String
deriving DecidableEq, Repr

/-- Type the text of the call into the input buffer, then invoke
`handleSendMessage`. -/
def applyCall (cfg : Config) (st : AppState) (c : SendCall) : AppState :=
  handleSendMessage cfg c.env { st with inputText := c.typed }

/-- Run a sequence of sends from a starting state. -/
def runSession (cfg : Config) (s : AppState) (calls : List SendCall) : AppState :=
  calls.foldl (applyCall cfg) s

/-- Clock discipline of a session, relative to a lower bound `lo` on the next
`Date.now()` sample: within each call the assistant-id sample is not earlier
than the user-id sample, and the next call starts at least two milliseconds
after the previous call's assistant-id sample (so the id minted as that
sample plus one is already in the past). -/
def callTimesOk : Nat → List SendCall → Prop
  | _, [] => True
  | lo, c :: rest =>
      lo ≤ c.env.userMsgTime ∧ c.env.userMsgTime ≤ c.env.asstMsgTime ∧
        callTimesOk (c.env.asstMsgTime + 2) rest

instance instDecidableCallTimesOk :
    (lo : Nat) → (calls : List SendCall) → Decidable (callTimesOk lo calls)
  | _, [] => Decidable.isTrue trivial
  | _, c :: rest =>
      have : Decidable (callTimesOk (c.env.asstMsgTime + 2) rest) :=
        instDecidableCallTimesOk (c.env.asstMsgTime + 2) rest
      inferInstanceAs (Decidable (_ ∧ _ ∧ _))

/-! ### Concrete sample inputs used by witnesses and counterexamples -/

/-- A fresh state: no conversations, empty transcript, no active
conversation, no send in flight. -/
def freshState (input : String) : AppState :=
  { conversations := []
    activeConversationId := none
    messages := []
    inputText := input
    isSending := false }

/-- A sample environment with the given clock samples and network outcome. -/
def sampleEnv (t : Nat) (net : FetchResult) : SendEnv :=
  { userMsgTime := t
    convMintTime := t
    asstMsgTime := t + 3
    userCreatedAt := "2026-10-11T00:00:00.000Z"
    asstCreatedAt := "2026-10-11T00:00:01.000Z"
    convUpdatedAt := "2026-10-11T00:00:01.000Z"
    net := net }

/-- The trace list of the spec's §8 example: a `text` trace saying `Hi` and a
`speak` trace saying `there`. -/
def sampleTraces : List Trace :=
  [{ type := "text", payload := { message := "Hi" } },
   { type := "speak", payload := { message := "there" } }]

/-- Clock samples of a first send whose network response arrives within the
same millisecond (100) as the send itself. -/
def collisionEnv1 : SendEnv :=
  { userMsgTime := 100
    convMintTime := 100
    asstMsgTime := 100
    userCreatedAt := ""
    asstCreatedAt := ""
    convUpdatedAt := ""
    net := FetchResult.success [{ type := "text", payload := { message := "ok" } }] }

/-- Clock samples of a second send issued one millisecond after the first. -/
def collisionEnv2 : SendEnv :=
  { userMsgTime := 101
    convMintTime := 101
    asstMsgTime := 105
    userCreatedAt := ""
    asstCreatedAt := ""
    convUpdatedAt := ""
    net := FetchResult.success [{ type := "text", payload := { message := "ok" } }] }

/-- A configuration with a credential. -/
def keyedConfig : Config := { apiKey := "VF.key", versionId := "production" }

/-- A configuration without a credential (mock mode). -/
def mockConfig : Config := { apiKey := "", versionId := "production" }

/-! ### Helper lemmas -/

theorem decChars_lt {n : Nat} (h : n < 10) : decChars n = [Nat.digitChar n] := by
  rw [decChars, if_pos h]

theorem decChars_ge {n : Nat} (h : ¬ n < 10) :
    decChars n = decChars (n / 10) ++ [Nat.digitChar (n % 10)] := by
  rw [decChars]
  exact if_neg h

theorem decChars_ne_nil (n : Nat) : decChars n ≠ [] := by
  rw [decChars]
  split <;> simp

theorem toDigitsCore_eq_decChars :
    ∀ (fuel n : Nat) (l : List Char), n < fuel →
      Nat.toDigitsCore 10 fuel n l = decChars n ++ l := by
  intro fuel
  induction fuel with
  | zero => omega
  | succ f ih =>
    intro n l hn
    simp only [Nat.toDigitsCore]
    by_cases h0 : n / 10 = 0
    · have h10 : n < 10 := by omega
      rw [if_pos h0, decChars_lt h10, Nat.mod_eq_of_lt h10]
      rfl
    · have h10 : ¬ n < 10 := by omega
      rw [if_neg h0, ih (n / 10) _ (by omega), decChars_ge h10, List.append_assoc]
      rfl

theorem natRepr_eq_decChars (n : Nat) : Nat.repr n = ⟨decChars n⟩ := by
  unfold Nat.repr Nat.toDigits
  rw [toDigitsCore_eq_decChars (n + 1) n [] (Nat.lt_succ_self n), List.append_nil]
  rfl

theorem digitChar_inj_lt10 :
    ∀ a < 10, ∀ b < 10, Nat.digitChar a = Nat.digitChar b → a = b := by decide

theorem decChars_injective : ∀ m n : Nat, decChars m = decChars n → m = n := by
  intro m
  induction m using Nat.strong_induction_on with
  | _ m ih =>
    intro n h
    by_cases hm : m < 10 <;> by_cases hn : n < 10
    · rw [decChars_lt hm, decChars_lt hn] at h
      exact digitChar_inj_lt10 m hm n hn (by injection h)
    · rw [decChars_lt hm, decChars_ge hn] at h
      have hlen := congrArg List.length h
      simp only [List.length_append, List.length_singleton] at hlen
      have : decChars (n / 10) = [] := List.length_eq_zero.mp (by omega)
      exact absurd this (decChars_ne_nil _)
    · rw [decChars_ge hm, decChars_lt hn] at h
      have hlen := congrArg List.length h
      simp only [List.length_append, List.length_singleton] at hlen
      have : decChars (m / 10) = [] := List.length_eq_zero.mp (by omega)
      exact absurd this (decChars_ne_nil _)
    · rw [decChars_ge hm, decChars_ge hn] at h
      obtain ⟨h1, h2⟩ := List.append_inj' h (by simp)
      have e1 : m / 10 = n / 10 :=
        ih (m / 10) (Nat.div_lt_self (by omega) (by omega)) (n / 10) h1
      have e2 : m % 10 = n % 10 :=
        digitChar_inj_lt10 (m % 10) (Nat.mod_lt _ (by omega)) (n % 10) (Nat.mod_lt _ (by omega))
          (by injection h2)
      omega

theorem natRepr_injective {m n : Nat} (h : Nat.repr m = Nat.repr n) : m = n := by
  rw [natRepr_eq_decChars, natRepr_eq_decChars] at h
  exact decChars_injective m n (congrArg String.data h)

/-! ### Lemmas about the JavaScript string primitives -/

theorem jsTrim_data (s : String) :
    (jsTrim s).data
      = ((s.data.dropWhile Char.isWhitespace).reverse.dropWhile Char.isWhitespace).reverse := rfl

theorem dropWhile_append_of_eq_nil {p : Char → Bool} {l₁ : List Char} (l₂ : List Char)
    (h : l₁.dropWhile p = []) : (l₁ ++ l₂).dropWhile p = l₂.dropWhile p := by
  induction l₁ with
  | nil => rfl
  | cons a t iht =>
    by_cases ha : p a
    · rw [List.cons_append, List.dropWhile_cons_of_pos ha]
      rw [List.dropWhile_cons_of_pos ha] at h
      exact iht h
    · rw [List.dropWhile_cons_of_neg ha] at h
      exact absurd h (by simp)

theorem dropWhile_append_of_ne_nil {p : Char → Bool} {l₁ : List Char} (l₂ : List Char)
    (h : l₁.dropWhile p ≠ []) : (l₁ ++ l₂).dropWhile p = l₁.dropWhile p ++ l₂ := by
  induction l₁ with
  | nil => exact absurd rfl h
  | cons a t iht =>
    by_cases ha : p a
    · rw [List.cons_append, List.dropWhile_cons_of_pos ha, List.dropWhile_cons_of_pos ha] at *
      exact iht h
    · rw [List.cons_append, List.dropWhile_cons_of_neg ha, List.dropWhile_cons_of_neg ha,
        List.cons_append]

theorem jsTrim_append_newline (s : String) : jsTrim (s ++ "\n") = jsTrim s := by
  apply String.ext
  rw [jsTrim_data, jsTrim_data, String.data_append]
  show (((s.data ++ ['\n']).dropWhile Char.isWhitespace).reverse.dropWhile
      Char.isWhitespace).reverse = _
  by_cases h : s.data.dropWhile Char.isWhitespace = []
  · rw [dropWhile_append_of_eq_nil _ h, h]
    rfl
  · rw [dropWhile_append_of_ne_nil _ h, List.reverse_append, List.reverse_singleton,
      List.singleton_append, List.dropWhile_cons_of_pos (by decide)]

theorem jsTrim_eq_self_of_shape {s : String} {d c : Char} {m : List Char}
    (hs : s.data = d :: (m ++ [c])) (hd : ¬ d.isWhitespace) (hc : ¬ c.isWhitespace) :
    jsTrim s = s := by
  apply String.ext
  rw [jsTrim_data, hs, List.dropWhile_cons_of_neg hd, List.reverse_cons, List.reverse_append,
    List.reverse_singleton, List.singleton_append, List.cons_append,
    List.dropWhile_cons_of_neg hc, List.reverse_cons, List.reverse_append,
    List.reverse_singleton, List.singleton_append, List.reverse_reverse, List.cons_append]

theorem traceContent_acc (traces : List Trace) (acc : String) :
    traces.foldl (fun a tr => if isTextual tr then a ++ tr.payload.message ++ "\n" else a) acc
      = acc ++ traceContent traces := by
  induction traces generalizing acc with
  | nil => simp [traceContent]
  | cons tr rest ih =>
    simp only [traceContent, List.foldl_cons]
    by_cases h : isTextual tr
    · simp only [if_pos h, ih]
      simp [String.append_assoc]
    · simp only [if_neg h, ih]
      simp

theorem traceContent_cons (tr : Trace) (rest : List Trace) :
    traceContent (tr :: rest) =
      (if isTextual tr then tr.payload.message ++ "\n" else "") ++ traceContent rest := by
  show List.foldl _ _ (tr :: rest) = _
  rw [List.foldl_cons, traceContent_acc]
  by_cases h : isTextual tr
  · simp [h]
  · simp [h]

theorem traceContent_of_no_textual {traces : List Trace}
    (h : textualMessages traces = []) : traceContent traces = "" := by
  induction traces with
  | nil => rfl
  | cons tr rest ih =>
    rw [traceContent_cons]
    by_cases ht : isTextual tr
    · simp [textualMessages, List.filter_cons, ht] at h
    · have hr : textualMessages rest = [] := by
        simpa [textualMessages, List.filter_cons, ht] using h
      rw [if_neg ht, ih hr]
      rfl

theorem newlineJoin_cons {m : String} {ms : List String} (h : ms ≠ []) :
    newlineJoin (m :: ms) = m ++ "\n" ++ newlineJoin ms := by
  cases ms with
  | nil => exact absurd rfl h
  | cons a t => rfl

theorem traceContent_eq_newlineJoin {traces : List Trace}
    (h : textualMessages traces ≠ []) :
    traceContent traces = newlineJoin (textualMessages traces) ++ "\n" := by
  induction traces with
  | nil => exact absurd rfl h
  | cons tr rest ih =>
    rw [traceContent_cons]
    by_cases ht : isTextual tr
    · have htm : textualMessages (tr :: rest) = tr.payload.message :: textualMessages rest := by
        simp [textualMessages, List.filter_cons, ht]
      rw [htm]
      by_cases hr : textualMessages rest = []
      · rw [traceContent_of_no_textual hr, hr, if_pos ht]
        simp [newlineJoin]
      · rw [ih hr, if_pos ht, newlineJoin_cons hr]
        simp [String.append_assoc]
    · have htm : textualMessages (tr :: rest) = textualMessages rest := by
        simp [textualMessages, List.filter_cons, ht]
      rw [htm, if_neg ht]
      rw [htm] at h
      rw [ih h]
      simp

theorem append_ne_empty_of_right_ne_nil {a b : String} (h : b.data ≠ []) : a ++ b ≠ "" := by
  intro he
  have := congrArg String.data he
  rw [String.data_append] at this
  exact h (List.append_eq_nil.mp this).2

theorem string_append_right_inj {p a b : String} (h : p ++ a = p ++ b) : a = b := by
  apply String.ext
  have := congrArg String.data h
  rw [String.data_append, String.data_append] at this
  exact List.append_cancel_left this


theorem traceContent_ne_empty {traces : List Trace}
    (h : textualMessages traces ≠ []) : traceContent traces ≠ "" := by
  rw [traceContent_eq_newlineJoin h]
  exact append_ne_empty_of_right_ne_nil (by decide)

theorem mockContent_shape (x : String) :
    ∃ m : List Char, (mockContent x).data = '[' :: (m ++ ['.']) := by
  refine ⟨("MOCK MODE] You asked: \"" : String).data ++ x.data ++
    ("\". \n\nTo test your real agent, click the Settings gear in the sidebar and enter your Voiceflow API Key" : String).data, ?_⟩
  simp [mockContent, List.append_assoc]

theorem jsTrim_mockContent (x : String) : jsTrim (mockContent x) = mockContent x := by
  obtain ⟨m, hm⟩ := mockContent_shape x
  exact jsTrim_eq_self_of_shape hm (by decide) (by decide)

theorem mockContent_contains_input (x : String) : containsSubstr x (mockContent x) :=
  ⟨("[MOCK MODE] You asked: \"" : String).data,
    ("\". \n\nTo test your real agent, click the Settings gear in the sidebar and enter your Voiceflow API Key." : String).data,
    by simp [mockContent]⟩

theorem mockContent_contains_notice (x : String) :
    containsSubstr "[MOCK MODE]" (mockContent x) := by
  refine ⟨[], (" You asked: \"" : String).data ++ x.data ++
    ("\". \n\nTo test your real agent, click the Settings gear in the sidebar and enter your Voiceflow API Key." : String).data, ?_⟩
  show ("[MOCK MODE]" : String).data ++ _ ++ _ = (mockContent x).data
  simp [mockContent, List.append_assoc]

theorem vfApiErrorMsg_ne_empty (status : Nat) (body : String) :
    vfApiErrorMsg status body ≠ "" := by
  intro he
  have := congrArg String.data he
  simp [vfApiErrorMsg] at this

theorem errorReplyContent_contains {emsg : String} (h : emsg ≠ "") (part : String)
    (hp : containsSubstr part emsg) : containsSubstr part (errorReplyContent emsg) := by
  obtain ⟨l, r, hlr⟩ := hp
  refine ⟨("Error connecting to Voiceflow: " : String).data ++ l,
    r ++ (". \n\nPlease check your API Key in Settings." : String).data, ?_⟩
  simp only [errorReplyContent, if_neg h, String.data_append]
  rw [← hlr]
  simp

theorem containsSubstr_refl (s : String) : containsSubstr s s :=
  ⟨[], [], by simp⟩

theorem vfApiErrorMsg_contains_status (status : Nat) (body : String) :
    containsSubstr (Nat.repr status) (vfApiErrorMsg status body) :=
  ⟨("VF API Error (" : String).data,
    ("): " : String).data ++ body.data, by simp [vfApiErrorMsg]⟩

theorem vfApiErrorMsg_contains_body (status : Nat) (body : String) :
    containsSubstr body (vfApiErrorMsg status body) :=
  ⟨("VF API Error (" : String).data ++ (Nat.repr status).data ++ ("): " : String).data,
    [], by simp [vfApiErrorMsg]⟩

/-! ### Behaviour of one `handleSendMessage` invocation -/

theorem handleSendMessage_guard_empty {cfg : Config} {env : SendEnv} {s : AppState}
    (h : jsTrim s.inputText = "") : handleSendMessage cfg env s = s := by
  unfold handleSendMessage
  rw [if_pos (Or.inl h)]

theorem handleSendMessage_guard_busy {cfg : Config} {env : SendEnv} {s : AppState}
    (h : s.isSending = true) : handleSendMessage cfg env s = s := by
  unfold handleSendMessage
  rw [if_pos (Or.inr (by rw [h]))]

theorem handleSendMessage_of_thrown {cfg : Config} {env : SendEnv} {s : AppState} {emsg : String}
    (h1 : jsTrim s.inputText ≠ "") (h2 : s.isSending = false)
    (he : attemptAssistantContent cfg env s.inputText = TryOutcome.thrown emsg) :
    handleSendMessage cfg env s =
      { s with
        messages := s.messages ++ [mkUserMessage env s.inputText,
          mkAssistantMessage env (errorReplyContent emsg)]
        inputText := ""
        isSending := false } := by
  unfold handleSendMessage
  rw [if_neg (by simp [h1, h2])]
  have hc : (mkUserMessage env s.inputText).content = s.inputText := rfl
  simp only [hc, he]
  simp

theorem handleSendMessage_of_content_some {cfg : Config} {env : SendEnv} {s : AppState}
    {c : String} {cid : String}
    (h1 : jsTrim s.inputText ≠ "") (h2 : s.isSending = false)
    (hc : attemptAssistantContent cfg env s.inputText = TryOutcome.content c)
    (ha : s.activeConversationId = some cid) :
    handleSendMessage cfg env s =
      { s with
        messages := s.messages ++ [mkUserMessage env s.inputText,
          mkAssistantMessage env (jsTrim c)]
        inputText := ""
        isSending := false } := by
  unfold handleSendMessage
  rw [if_neg (by simp [h1, h2])]
  have hcc : (mkUserMessage env s.inputText).content = s.inputText := rfl
  simp only [hcc, hc, ha]
  simp

theorem handleSendMessage_of_content_none {cfg : Config} {env : SendEnv} {s : AppState}
    {c : String}
    (h1 : jsTrim s.inputText ≠ "") (h2 : s.isSending = false)
    (hc : attemptAssistantContent cfg env s.inputText = TryOutcome.content c)
    (ha : s.activeConversationId = none) :
    handleSendMessage cfg env s =
      { conversations :=
          { id := "conv-" ++ Nat.repr env.convMintTime
            title := substringTo s.inputText 30 ++ "..."
            updated_at := env.convUpdatedAt } :: s.conversations
        activeConversationId := some ("conv-" ++ Nat.repr env.convMintTime)
        messages := s.messages ++ [mkUserMessage env s.inputText,
          mkAssistantMessage env (jsTrim c)]
        inputText := ""
        isSending := false } := by
  unfold handleSendMessage
  rw [if_neg (by simp [h1, h2])]
  have hcc : (mkUserMessage env s.inputText).content = s.inputText := rfl
  simp only [hcc, hc, ha, currentConvId]
  simp

theorem handleSendMessage_messages_shape {cfg : Config} {env : SendEnv} {s : AppState}
    (h1 : jsTrim s.inputText ≠ "") (h2 : s.isSending = false) :
    ∃ acontent : String,
      (handleSendMessage cfg env s).messages
        = s.messages ++ [mkUserMessage env s.inputText, mkAssistantMessage env acontent] ∧
      (handleSendMessage cfg env s).isSending = false := by
  cases hatt : attemptAssistantContent cfg env s.inputText with
  | content c =>
    cases ha : s.activeConversationId with
    | none => rw [handleSendMessage_of_content_none h1 h2 hatt ha]; exact ⟨jsTrim c, rfl, rfl⟩
    | some cid => rw [handleSendMessage_of_content_some h1 h2 hatt ha]; exact ⟨jsTrim c, rfl, rfl⟩
  | thrown emsg =>
    rw [handleSendMessage_of_thrown h1 h2 hatt]
    exact ⟨errorReplyContent emsg, rfl, rfl⟩

theorem runSession_cons (cfg : Config) (s : AppState) (c : SendCall) (rest : List SendCall) :
    runSession cfg s (c :: rest) = runSession cfg (applyCall cfg s c) rest := rfl

theorem nodup_append_pair {α : Type _} {l : List α} {x y : α}
    (hl : l.Nodup) (hx : x ∉ l) (hy : y ∉ l) (hxy : x ≠ y) : (l ++ [x, y]).Nodup := by
  rw [List.nodup_append]
  refine ⟨hl, by simp [hxy], ?_⟩
  intro a hal haxy
  simp only [List.mem_cons, List.mem_singleton, List.not_mem_nil, or_false] at haxy
  rcases haxy with rfl | rfl
  · exact hx hal
  · exact hy hal

theorem runSession_messages_nodup :
    ∀ (calls : List SendCall) (lo : Nat) (cfg : Config) (s : AppState),
      callTimesOk lo calls → s.isSending = false →
      (s.messages.map Message.id).Nodup →
      (∀ m ∈ s.messages, ∃ k, k < lo ∧ m.id = Nat.repr k) →
      ((runSession cfg s calls).messages.map Message.id).Nodup := by
  intro calls
  induction calls with
  | nil => intro lo cfg s _ _ hnd _; exact hnd
  | cons c rest ih =>
    intro lo cfg s ht hsend hnd hbound
    obtain ⟨hlo, hua, htrest⟩ := ht
    rw [runSession_cons]
    by_cases hg : jsTrim c.typed = ""
    · have happ : applyCall cfg s c = { s with inputText := c.typed } :=
        handleSendMessage_guard_empty hg
      refine ih (c.env.asstMsgTime + 2) cfg _ htrest ?_ ?_ ?_ <;> rw [happ]
      · exact hsend
      · exact hnd
      · intro m hm
        obtain ⟨k, hk, hid⟩ := hbound m hm
        exact ⟨k, by omega, hid⟩
    · have h2 : ({ s with inputText := c.typed } : AppState).isSending = false := hsend
      obtain ⟨ac, hmsgs, hsend'⟩ :=
        @handleSendMessage_messages_shape cfg c.env { s with inputText := c.typed } hg h2
      have hmsgs' : (applyCall cfg s c).messages
          = s.messages ++ [mkUserMessage c.env c.typed, mkAssistantMessage c.env ac] := hmsgs
      refine ih (c.env.asstMsgTime + 2) cfg _ htrest hsend' ?_ ?_
      · rw [hmsgs']
        simp only [List.map_append]
        refine nodup_append_pair hnd ?_ ?_ ?_
        · intro hmem
          obtain ⟨m, hm, hid⟩ := List.mem_map.mp hmem
          obtain ⟨k, hk, hidk⟩ := hbound m hm
          have : k = c.env.userMsgTime := natRepr_injective (by rw [← hidk, hid]; rfl)
          omega
        · intro hmem
          obtain ⟨m, hm, hid⟩ := List.mem_map.mp hmem
          obtain ⟨k, hk, hidk⟩ := hbound m hm
          have : k = c.env.asstMsgTime + 1 := natRepr_injective (by rw [← hidk, hid]; rfl)
          omega
        · intro hcol
          have : c.env.userMsgTime = c.env.asstMsgTime + 1 := natRepr_injective hcol
          omega
      · intro m hm
        rw [hmsgs'] at hm
        rcases List.mem_append.mp hm with hold | hnew
        · obtain ⟨k, hk, hid⟩ := hbound m hold
          exact ⟨k, by omega, hid⟩
        · simp only [List.mem_cons, List.not_mem_nil, or_false] at hnew
          rcases hnew with h | h
          · exact ⟨c.env.userMsgTime, by omega, by rw [h]; rfl⟩
          · exact ⟨c.env.asstMsgTime + 1, by omega, by rw [h]; rfl⟩

/-! ### Claims -/

/-- C1: for every input that is non-empty after trimming and with no send in
flight, `handleSendMessage` appends exactly one user-role message carrying the
input text and exactly one assistant-role message after it, whatever the
configuration and network outcome; no other messages are added or removed. -/
theorem C1_send_appends_one_user_one_assistant
    (cfg : Config) (env : SendEnv) (s : AppState)
    (h1 : jsTrim s.inputText ≠ "") (h2 : s.isSending = false) :
    ∃ u a : Message,
      (handleSendMessage cfg env s).messages = s.messages ++ [u, a] ∧
      u.role = Role.user ∧ u.content = s.inputText ∧ a.role = Role.assistant := by
  cases hatt : attemptAssistantContent cfg env s.inputText with
  | content c =>
    cases ha : s.activeConversationId with
    | none =>
      exact ⟨mkUserMessage env s.inputText, mkAssistantMessage env (jsTrim c),
        by rw [handleSendMessage_of_content_none h1 h2 hatt ha], rfl, rfl, rfl⟩
    | some cid =>
      exact ⟨mkUserMessage env s.inputText, mkAssistantMessage env (jsTrim c),
        by rw [handleSendMessage_of_content_some h1 h2 hatt ha], rfl, rfl, rfl⟩
  | thrown emsg =>
    exact ⟨mkUserMessage env s.inputText, mkAssistantMessage env (errorReplyContent emsg),
      by rw [handleSendMessage_of_thrown h1 h2 hatt], rfl, rfl, rfl⟩

theorem C1_witness :
    ∃ u a : Message,
      (handleSendMessage mockConfig (sampleEnv 0 (FetchResult.success []))
          (freshState "hello")).messages
        = (freshState "hello").messages ++ [u, a] ∧
      u.role = Role.user ∧ u.content = (freshState "hello").inputText ∧
      a.role = Role.assistant :=
  C1_send_appends_one_user_one_assistant mockConfig (sampleEnv 0 (FetchResult.success []))
    (freshState "hello") (by decide) rfl

/-- C2: while a send is in flight (the busy flag is set), a further
`handleSendMessage` invocation is a no-op: the entire state — transcript,
conversation registry, input buffer, busy flag — is returned unchanged. -/
theorem C2_busy_send_is_noop (cfg : Config) (env : SendEnv) (s : AppState)
    (h : s.isSending = true) : handleSendMessage cfg env s = s :=
  handleSendMessage_guard_busy h

theorem C2_witness :
    handleSendMessage keyedConfig (sampleEnv 5 (FetchResult.failure "boom"))
        { freshState "question" with isSending := true }
      = { freshState "question" with isSending := true } :=
  C2_busy_send_is_noop keyedConfig (sampleEnv 5 (FetchResult.failure "boom"))
    { freshState "question" with isSending := true } rfl

/-- C3: every invocation that passes the validation guard ends with the busy
flag cleared, on the success path and on every failure path alike. -/
theorem C3_busy_flag_released (cfg : Config) (env : SendEnv) (s : AppState)
    (h1 : jsTrim s.inputText ≠ "") (h2 : s.isSending = false) :
    (handleSendMessage cfg env s).isSending = false := by
  obtain ⟨ac, hmsgs, hsend⟩ := handleSendMessage_messages_shape h1 h2
  exact hsend

theorem C3_witness :
    (handleSendMessage keyedConfig (sampleEnv 5 (FetchResult.failure "boom"))
        (freshState "question")).isSending = false :=
  C3_busy_flag_released keyedConfig (sampleEnv 5 (FetchResult.failure "boom"))
    (freshState "question") (by decide) rfl

/-- C5: every non-success HTTP response makes `handleSendMessage` append an
assistant-role message whose content contains both the decimal status code
and the raw response body, and the coordinator completes normally. -/
theorem C5_http_error_surfaced (cfg : Config) (env : SendEnv) (s : AppState)
    (status : Nat) (body : String)
    (h1 : jsTrim s.inputText ≠ "") (h2 : s.isSending = false)
    (hk : cfg.apiKey ≠ "") (hnet : env.net = FetchResult.httpError status body) :
    ∃ a : Message,
      (handleSendMessage cfg env s).messages
        = s.messages ++ [mkUserMessage env s.inputText, a] ∧
      a.role = Role.assistant ∧
      containsSubstr (Nat.repr status) a.content ∧
      containsSubstr body a.content := by
  have hatt : attemptAssistantContent cfg env s.inputText
      = TryOutcome.thrown (vfApiErrorMsg status body) := by
    simp [attemptAssistantContent, hk, hnet]
  refine ⟨mkAssistantMessage env (errorReplyContent (vfApiErrorMsg status body)),
    by rw [handleSendMessage_of_thrown h1 h2 hatt], rfl, ?_, ?_⟩
  · exact errorReplyContent_contains (vfApiErrorMsg_ne_empty status body) _
      (vfApiErrorMsg_contains_status status body)
  · exact errorReplyContent_contains (vfApiErrorMsg_ne_empty status body) _
      (vfApiErrorMsg_contains_body status body)

theorem C5_witness :
    ∃ a : Message,
      (handleSendMessage keyedConfig (sampleEnv 5 (FetchResult.httpError 401 "unauthorized"))
          (freshState "question")).messages
        = (freshState "question").messages
            ++ [mkUserMessage (sampleEnv 5 (FetchResult.httpError 401 "unauthorized")) "question", a] ∧
      a.role = Role.assistant ∧
      containsSubstr (Nat.repr 401) a.content ∧
      containsSubstr "unauthorized" a.content :=
  C5_http_error_surfaced keyedConfig (sampleEnv 5 (FetchResult.httpError 401 "unauthorized"))
    (freshState "question") 401 "unauthorized" (by decide) rfl (by decide) rfl

/-- C7: an input that is empty after trimming makes `handleSendMessage` a
no-op: nothing is appended, no busy flag is set, and the whole state is
returned unchanged. -/
theorem C7_empty_input_ignored (cfg : Config) (env : SendEnv) (s : AppState)
    (h : jsTrim s.inputText = "") : handleSendMessage cfg env s = s :=
  handleSendMessage_guard_empty h

theorem C7_witness :
    handleSendMessage keyedConfig (sampleEnv 5 (FetchResult.success []))
        (freshState "  \n ")
      = freshState "  \n " :=
  C7_empty_input_ignored keyedConfig (sampleEnv 5 (FetchResult.success []))
    (freshState "  \n ") (by decide)

/-- C4: with a credential and a successful response, the assistant message
content is the newline-joined concatenation of the payload messages of
exactly the `"text"`/`"speak"` traces, in order, trimmed; when no such trace
exists, it is the fixed fallback notice instead. -/
theorem C4_success_content (cfg : Config) (env : SendEnv) (s : AppState)
    (traces : List Trace)
    (h1 : jsTrim s.inputText ≠ "") (h2 : s.isSending = false)
    (hk : cfg.apiKey ≠ "") (hnet : env.net = FetchResult.success traces) :
    ∃ a : Message,
      (handleSendMessage cfg env s).messages
        = s.messages ++ [mkUserMessage env s.inputText, a] ∧
      a.role = Role.assistant ∧
      (textualMessages traces ≠ [] →
        a.content = jsTrim (newlineJoin (textualMessages traces))) ∧
      (textualMessages traces = [] → a.content = noTextFallback) := by
  by_cases hT : textualMessages traces = []
  · have htc : traceContent traces = "" := traceContent_of_no_textual hT
    have hatt : attemptAssistantContent cfg env s.inputText
        = TryOutcome.content noTextFallback := by
      simp [attemptAssistantContent, hk, hnet, htc]
    have hfix : jsTrim noTextFallback = noTextFallback := by decide
    cases ha : s.activeConversationId with
    | none =>
      exact ⟨mkAssistantMessage env (jsTrim noTextFallback),
        by rw [handleSendMessage_of_content_none h1 h2 hatt ha], rfl,
        fun h => absurd hT h, fun _ => hfix⟩
    | some cid =>
      exact ⟨mkAssistantMessage env (jsTrim noTextFallback),
        by rw [handleSendMessage_of_content_some h1 h2 hatt ha], rfl,
        fun h => absurd hT h, fun _ => hfix⟩
  · have hne : traceContent traces ≠ "" := traceContent_ne_empty hT
    have hatt : attemptAssistantContent cfg env s.inputText
        = TryOutcome.content (traceContent traces) := by
      simp [attemptAssistantContent, hk, hnet, hne]
    have hjoin : jsTrim (traceContent traces) = jsTrim (newlineJoin (textualMessages traces)) := by
      rw [traceContent_eq_newlineJoin hT, jsTrim_append_newline]
    cases ha : s.activeConversationId with
    | none =>
      exact ⟨mkAssistantMessage env (jsTrim (traceContent traces)),
        by rw [handleSendMessage_of_content_none h1 h2 hatt ha], rfl,
        fun _ => hjoin, fun h => absurd h hT⟩
    | some cid =>
      exact ⟨mkAssistantMessage env (jsTrim (traceContent traces)),
        by rw [handleSendMessage_of_content_some h1 h2 hatt ha], rfl,
        fun _ => hjoin, fun h => absurd h hT⟩

theorem C4_witness :
    ∃ a : Message,
      (handleSendMessage keyedConfig (sampleEnv 7 (FetchResult.success sampleTraces))
          (freshState "question")).messages
        = (freshState "question").messages
            ++ [mkUserMessage (sampleEnv 7 (FetchResult.success sampleTraces)) "question", a] ∧
      a.content = "Hi\nthere" := by
  obtain ⟨a, hmsg, hrole, hjoin, hfall⟩ :=
    C4_success_content keyedConfig (sampleEnv 7 (FetchResult.success sampleTraces))
      (freshState "question") sampleTraces (by decide) rfl (by decide) rfl
  refine ⟨a, hmsg, ?_⟩
  rw [hjoin (by decide)]
  decide

/-- C9: with no credential configured, the network outcome is irrelevant to
the result of `handleSendMessage` (no call to the dialogue service), and the
appended assistant message contains the user's input verbatim together with
the fixed mock-mode notice. -/
theorem C9_mock_mode_echo (cfg : Config) (env : SendEnv) (s : AppState)
    (hk : cfg.apiKey = "") (h1 : jsTrim s.inputText ≠ "") (h2 : s.isSending = false) :
    (∀ net' : FetchResult,
      handleSendMessage cfg { env with net := net' } s = handleSendMessage cfg env s) ∧
    ∃ a : Message,
      (handleSendMessage cfg env s).messages
        = s.messages ++ [mkUserMessage env s.inputText, a] ∧
      a.role = Role.assistant ∧
      containsSubstr s.inputText a.content ∧
      containsSubstr "[MOCK MODE]" a.content := by
  have hatt : ∀ env' : SendEnv, attemptAssistantContent cfg env' s.inputText
      = TryOutcome.content (mockContent s.inputText) := by
    intro env'
    simp [attemptAssistantContent, hk]
  constructor
  · intro net'
    cases ha : s.activeConversationId with
    | none =>
      rw [handleSendMessage_of_content_none h1 h2 (hatt _) ha,
        handleSendMessage_of_content_none h1 h2 (hatt env) ha]
      simp [mkUserMessage, mkAssistantMessage]
    | some cid =>
      rw [handleSendMessage_of_content_some h1 h2 (hatt _) ha,
        handleSendMessage_of_content_some h1 h2 (hatt env) ha]
      simp [mkUserMessage, mkAssistantMessage]
  · have hcontains1 : containsSubstr s.inputText (jsTrim (mockContent s.inputText)) := by
      rw [jsTrim_mockContent]
      exact mockContent_contains_input s.inputText
    have hcontains2 : containsSubstr "[MOCK MODE]" (jsTrim (mockContent s.inputText)) := by
      rw [jsTrim_mockContent]
      exact mockContent_contains_notice s.inputText
    cases ha : s.activeConversationId with
    | none =>
      exact ⟨mkAssistantMessage env (jsTrim (mockContent s.inputText)),
        by rw [handleSendMessage_of_content_none h1 h2 (hatt env) ha], rfl,
        hcontains1, hcontains2⟩
    | some cid =>
      exact ⟨mkAssistantMessage env (jsTrim (mockContent s.inputText)),
        by rw [handleSendMessage_of_content_some h1 h2 (hatt env) ha], rfl,
        hcontains1, hcontains2⟩

theorem C9_witness :
    (∀ net' : FetchResult,
      handleSendMessage mockConfig { sampleEnv 3 (FetchResult.failure "unused") with net := net' }
          (freshState "hello")
        = handleSendMessage mockConfig (sampleEnv 3 (FetchResult.failure "unused"))
            (freshState "hello")) ∧
    ∃ a : Message,
      (handleSendMessage mockConfig (sampleEnv 3 (FetchResult.failure "unused"))
          (freshState "hello")).messages
        = (freshState "hello").messages
            ++ [mkUserMessage (sampleEnv 3 (FetchResult.failure "unused")) "hello", a] ∧
      a.role = Role.assistant ∧
      containsSubstr "hello" a.content ∧
      containsSubstr "[MOCK MODE]" a.content :=
  C9_mock_mode_echo mockConfig (sampleEnv 3 (FetchResult.failure "unused"))
    (freshState "hello") rfl (by decide) rfl

/-- C6 counterexample: sending a first message (no active conversation, valid
input, no send in flight) while the network call fails registers no
conversation summary at all — the registry stays empty — so the claim that
sending the first message always registers exactly one summary is false. -/
theorem C6_counterexample :
    (freshState "first question").activeConversationId = none ∧
    jsTrim (freshState "first question").inputText ≠ "" ∧
    (freshState "first question").isSending = false ∧
    (handleSendMessage keyedConfig (sampleEnv 9 (FetchResult.failure "network down"))
        (freshState "first question")).conversations = [] := by
  refine ⟨rfl, by decide, rfl, ?_⟩
  decide

/-- C6 (amended): sending the first message while no conversation is active
registers exactly one new conversation summary — its title the first 30
characters of the user's text followed by an ellipsis, prepended to the
registry, and made active — provided the send completes without error (mock
mode, or a successful response). -/
theorem C6_first_send_registers_conversation (cfg : Config) (env : SendEnv) (s : AppState)
    (h1 : jsTrim s.inputText ≠ "") (h2 : s.isSending = false)
    (ha : s.activeConversationId = none)
    (hok : cfg.apiKey = "" ∨ ∃ traces, env.net = FetchResult.success traces) :
    ∃ conv : Conversation,
      (handleSendMessage cfg env s).conversations = conv :: s.conversations ∧
      conv.title = substringTo s.inputText 30 ++ "..." ∧
      (handleSendMessage cfg env s).activeConversationId = some conv.id := by
  have hatt : ∃ c, attemptAssistantContent cfg env s.inputText = TryOutcome.content c := by
    by_cases hk : cfg.apiKey = ""
    · exact ⟨mockContent s.inputText, by simp [attemptAssistantContent, hk]⟩
    · rcases hok with hk' | ⟨traces, hnet⟩
      · exact absurd hk' hk
      · exact ⟨if traceContent traces = "" then noTextFallback else traceContent traces,
          by simp [attemptAssistantContent, hk, hnet]⟩
  obtain ⟨c, hc⟩ := hatt
  rw [handleSendMessage_of_content_none h1 h2 hc ha]
  exact ⟨_, rfl, rfl, rfl⟩

theorem C6_witness :
    ∃ conv : Conversation,
      (handleSendMessage mockConfig (sampleEnv 11 (FetchResult.success []))
          (freshState "What is the durability standard for tubs?")).conversations
        = conv :: (freshState "What is the durability standard for tubs?").conversations ∧
      conv.title
        = substringTo (freshState "What is the durability standard for tubs?").inputText 30
            ++ "..." ∧
      (handleSendMessage mockConfig (sampleEnv 11 (FetchResult.success []))
          (freshState "What is the durability standard for tubs?")).activeConversationId
        = some conv.id :=
  C6_first_send_registers_conversation mockConfig (sampleEnv 11 (FetchResult.success []))
    (freshState "What is the durability standard for tubs?") (by decide) rfl rfl (Or.inl rfl)

/-- C10: when a send fails on the first turn of a new chat, the error message
is appended to the transcript but the registry is unchanged and the active
conversation id stays unset; the minted conversation id is discarded, so a
retry whose clock sample differs mints a different conversation id and a
different external-service session key. -/
theorem C10_failed_first_turn_discards_conversation
    (cfg : Config) (env : SendEnv) (s : AppState) (emsg : String)
    (h1 : jsTrim s.inputText ≠ "") (h2 : s.isSending = false)
    (ha : s.activeConversationId = none)
    (he : attemptAssistantContent cfg env s.inputText = TryOutcome.thrown emsg) :
    (handleSendMessage cfg env s).conversations = s.conversations ∧
    (handleSendMessage cfg env s).activeConversationId = none ∧
    (∃ a : Message,
      (handleSendMessage cfg env s).messages
        = s.messages ++ [mkUserMessage env s.inputText, a] ∧ a.role = Role.assistant) ∧
    (∀ env₂ : SendEnv, env₂.convMintTime ≠ env.convMintTime →
      currentConvId env₂ (handleSendMessage cfg env s) ≠ currentConvId env s ∧
      sessionKey env₂ (handleSendMessage cfg env s) ≠ sessionKey env s) := by
  rw [handleSendMessage_of_thrown h1 h2 he]
  refine ⟨rfl, ha, ⟨mkAssistantMessage env (errorReplyContent emsg), rfl, rfl⟩, ?_⟩
  intro env₂ hne
  have hcur : ∀ env' : SendEnv,
      currentConvId env'
          ({ s with
            messages := s.messages ++ [mkUserMessage env s.inputText,
              mkAssistantMessage env (errorReplyContent emsg)]
            inputText := ""
            isSending := false } : AppState)
        = "conv-" ++ Nat.repr env'.convMintTime := by
    intro env'
    simp [currentConvId, ha]
  have hcur0 : currentConvId env s = "conv-" ++ Nat.repr env.convMintTime := by
    simp [currentConvId, ha]
  have hid : ("conv-" ++ Nat.repr env₂.convMintTime : String)
      ≠ "conv-" ++ Nat.repr env.convMintTime := by
    intro h
    exact hne (natRepr_injective (string_append_right_inj h))
  constructor
  · rw [hcur env₂, hcur0]
    exact hid
  · rw [sessionKey, sessionKey, hcur env₂, hcur0]
    intro h
    exact hid (string_append_right_inj h)

theorem C10_witness :
    (handleSendMessage keyedConfig (sampleEnv 13 (FetchResult.failure "timeout"))
        (freshState "hello")).conversations = (freshState "hello").conversations ∧
    (handleSendMessage keyedConfig (sampleEnv 13 (FetchResult.failure "timeout"))
        (freshState "hello")).activeConversationId = none ∧
    (∃ a : Message,
      (handleSendMessage keyedConfig (sampleEnv 13 (FetchResult.failure "timeout"))
          (freshState "hello")).messages
        = (freshState "hello").messages
            ++ [mkUserMessage (sampleEnv 13 (FetchResult.failure "timeout")) "hello", a] ∧
      a.role = Role.assistant) ∧
    (∀ env₂ : SendEnv,
      env₂.convMintTime ≠ (sampleEnv 13 (FetchResult.failure "timeout")).convMintTime →
      currentConvId env₂
          (handleSendMessage keyedConfig (sampleEnv 13 (FetchResult.failure "timeout"))
            (freshState "hello"))
        ≠ currentConvId (sampleEnv 13 (FetchResult.failure "timeout")) (freshState "hello") ∧
      sessionKey env₂
          (handleSendMessage keyedConfig (sampleEnv 13 (FetchResult.failure "timeout"))
            (freshState "hello"))
        ≠ sessionKey (sampleEnv 13 (FetchResult.failure "timeout")) (freshState "hello")) :=
  C10_failed_first_turn_discards_conversation keyedConfig
    (sampleEnv 13 (FetchResult.failure "timeout")) (freshState "hello") "timeout"
    (by decide) rfl rfl (by decide)

/-- C8 counterexample: with a first send answered within the same millisecond
(user id "100", assistant id "101") and a second send begun one millisecond
later (user id "101"), the transcript contains two messages with id "101",
so time-based ids are not unconditionally unique. -/
theorem C8_counterexample :
    ¬ List.Nodup (List.map Message.id (AppState.messages (runSession keyedConfig
      (freshState "")
      [{ env := collisionEnv1, typed := "hi" }, { env := collisionEnv2, typed := "again" }]))) := by
  decide

/-- C8 (amended): message ids are unique within a transcript for every
session of sends, provided the clock samples respect `callTimesOk`: within a
call the assistant sample is not earlier than the user sample, and each call
begins at least two milliseconds after the previous call's assistant sample. -/
theorem C8_ids_nodup_of_clock (cfg : Config) (calls : List SendCall) (s : AppState)
    (hmsgs : s.messages = []) (hsend : s.isSending = false)
    (ht : callTimesOk 0 calls) :
    ((runSession cfg s calls).messages.map Message.id).Nodup :=
  runSession_messages_nodup calls 0 cfg s ht hsend
    (by rw [hmsgs]; exact List.nodup_nil)
    (by rw [hmsgs]; intro m hm; exact absurd hm (List.not_mem_nil m))

theorem C8_witness :
    callTimesOk 0
      [{ env := sampleEnv 10 (FetchResult.success []), typed := "one" },
       { env := sampleEnv 20 (FetchResult.failure "x"), typed := "two" }] ∧
    List.Nodup (List.map Message.id (AppState.messages (runSession mockConfig
      (freshState "")
      [{ env := sampleEnv 10 (FetchResult.success []), typed := "one" },
       { env := sampleEnv 20 (FetchResult.failure "x"), typed := "two" }]))) :=
  ⟨by decide,
    C8_ids_nodup_of_clock mockConfig
      [{ env := sampleEnv 10 (FetchResult.success []), typed := "one" },
       { env := sampleEnv 20 (FetchResult.failure "x"), typed := "two" }]
      (freshState "") rfl rfl (by decide)⟩

end Nordik
